import Mathlib

/-!
Verification development for the tank combat simulation.

The definitions below are shallow embeddings of the TypeScript source:
  - `Tank.takeDamage` / `Tank.heal` (entities/Tank.ts)
  - `Wall.intersectsCircle` (entities/Wall.ts)
  - `CollisionSystem.resolveTankWallCollision`, `keepTankInBounds`,
    `getCircleRectPushVector`, `checkBulletTankCollision` (systems/CollisionSystem.ts)
  - `EnemyTank.updateAIState`, `alertToPosition` (entities/EnemyTank.ts)
  - `TankGameEngine.checkWaveCompletion` / `spawnWave` and the hit-alert
    propagation of `updateBullets` (TankGameEngine.ts)

Numbers are embedded as rationals (reals for the one function that computes a
genuine square root).  Wherever the source compares a square-root distance with
a nonnegative threshold, the embedding compares the squared distance with the
squared threshold, which is equivalent over the reals.
-/

set_option autoImplicit false

namespace TankGame

/-- Planar vector with rational components (utils/Vector2.ts). -/
structure Vec where
  x : ℚ
  y : ℚ
deriving DecidableEq, Repr

/-- Squared distance between two vectors (Vector2.distanceToSquared).
The source's `distanceTo` is the square root of this quantity. -/
def distSq (a b : Vec) : ℚ :=
  (a.x - b.x) * (a.x - b.x) + (a.y - b.y) * (a.y - b.y)

/-- The health/aliveness fragment of the base `Tank` class. -/
structure TankState where
  health : ℚ
  maxHealth : ℚ
  isAlive : Bool
deriving DecidableEq, Repr

/-- Embeds the `Tank` constructor: health = maxHealth = the given initial health,
isAlive = true. -/
def mkTank (health : ℚ) : TankState :=
  { health := health, maxHealth := health, isAlive := true }

/-- Embeds `Tank.takeDamage(amount)`: health := max(0, health - amount); if the new
health is ≤ 0 the tank is marked dead and the call returns true, else false. -/
def takeDamage (s : TankState) (amount : ℚ) : TankState × Bool :=
  let h := max 0 (s.health - amount)
  if h ≤ 0 then ({ s with health := h, isAlive := false }, true)
  else ({ s with health := h }, false)

/-- Embeds `Tank.heal(amount)`: health := min(maxHealth, health + amount). -/
def heal (s : TankState) (amount : ℚ) : TankState :=
  { s with health := min s.maxHealth (s.health + amount) }

/-- One call of a health-mutating method. -/
inductive TankCall where
  | damage (amount : ℚ)
  | healBy (amount : ℚ)
deriving DecidableEq, Repr

/-- Amount carried by a call. -/
def TankCall.amount : TankCall → ℚ
  | .damage a => a
  | .healBy a => a

/-- Apply one call to a tank state (the returned Bool of takeDamage is
discarded; only the state evolution matters here). -/
def applyCall (s : TankState) : TankCall → TankState
  | .damage a => (takeDamage s a).1
  | .healBy a => heal s a

/-- Run a finite sequence of takeDamage/heal calls. -/
def runCalls (s : TankState) (cs : List TankCall) : TankState :=
  cs.foldl applyCall s

/-- The spec's unit invariant: the alive flag agrees with health > 0. -/
def aliveInv (s : TankState) : Prop :=
  s.isAlive = true ↔ 0 < s.health

instance (s : TankState) : Decidable (aliveInv s) := by
  unfold aliveInv; infer_instance

/-- Health bounds predicate: 0 ≤ health ≤ maxHealth. -/
def healthInBounds (s : TankState) : Prop :=
  0 ≤ s.health ∧ s.health ≤ s.maxHealth

instance (s : TankState) : Decidable (healthInBounds s) := by
  unfold healthInBounds; infer_instance

/-- Axis-aligned wall rectangle (entities/Wall.ts). -/
structure Wall where
  x : ℚ
  y : ℚ
  width : ℚ
  height : ℚ
deriving DecidableEq, Repr

/-- Embeds `Wall.getCenter`. -/
def Wall.getCenter (w : Wall) : Vec :=
  ⟨w.x + w.width / 2, w.y + w.height / 2⟩

/-- Embeds `Wall.intersectsCircle(cx, cy, radius)`: clamp the circle center onto the
rectangle per axis and compare the squared distance with the squared radius
(the source compares `dx*dx + dy*dy <= radius*radius` directly, no sqrt). -/
def Wall.intersectsCircle (w : Wall) (cx cy radius : ℚ) : Bool :=
  let closestX := max w.x (min cx (w.x + w.width))
  let closestY := max w.y (min cy (w.y + w.height))
  let dx := cx - closestX
  let dy := cy - closestY
  decide (dx * dx + dy * dy ≤ radius * radius)

/-- JavaScript `Math.sign`. -/
def jsSign (q : ℚ) : ℚ :=
  if 0 < q then 1 else if q < 0 then -1 else 0

/-- The position/radius/aliveness fragment of a tank as seen by the
collision system. -/
structure MovingTank where
  pos : Vec
  radius : ℚ
  isAlive : Bool
deriving DecidableEq, Repr

/-- Body of the per-wall loop of `CollisionSystem.resolveTankWallCollision`:
if the tank's circle intersects the wall, push the tank position out along the
axis with the smaller overlap (`Math.sign` of the center offset picks the
side; ties favor the vertical axis). -/
def resolveOneWall (w : Wall) (radius : ℚ) (pos : Vec) : Vec :=
  if w.intersectsCircle pos.x pos.y radius then
    let c := w.getCenter
    let halfWidth := w.width / 2 + radius
    let halfHeight := w.height / 2 + radius
    let dx := pos.x - c.x
    let dy := pos.y - c.y
    let overlapX := halfWidth - |dx|
    let overlapY := halfHeight - |dy|
    if overlapX < overlapY then ⟨c.x + jsSign dx * halfWidth, pos.y⟩
    else ⟨pos.x, c.y + jsSign dy * halfHeight⟩
  else pos

/-- Embeds `CollisionSystem.resolveTankWallCollision(tank)`: dead tanks are left
untouched; otherwise the per-wall push-out runs over the walls in order,
each iteration reading the position left by the previous one. -/
def resolveTankWallCollision (walls : List Wall) (t : MovingTank) : MovingTank :=
  if t.isAlive then
    { t with pos := walls.foldl (fun p w => resolveOneWall w t.radius p) t.pos }
  else t

/-- Playable bounds as returned by `GameMap.getPlayableBounds`. -/
structure Bounds where
  minX : ℚ
  maxX : ℚ
  minY : ℚ
  maxY : ℚ
deriving DecidableEq, Repr

/-- The bounds of the 800×560 arena with boundary thickness 20. -/
def arenaBounds : Bounds := ⟨20, 780, 20, 540⟩

/-- Embeds `CollisionSystem.keepTankInBounds(tank)`: clamp each coordinate into the
playable rectangle shrunk by the tank's radius. -/
def keepTankInBounds (b : Bounds) (t : MovingTank) : MovingTank :=
  { t with pos := ⟨max (b.minX + t.radius) (min (b.maxX - t.radius) t.pos.x),
                   max (b.minY + t.radius) (min (b.maxY - t.radius) t.pos.y)⟩ }

/-- The fragment of a bullet relevant to collision (entities/Bullet.ts):
the radius is the readonly constant 4. -/
structure BulletState where
  pos : Vec
  isActive : Bool
deriving DecidableEq, Repr

/-- Bullet collision radius (readonly field of Bullet). -/
def bulletRadius : ℚ := 4

/-- Embeds `CollisionSystem.checkBulletTankCollision(bullet, tank)`: false for an
inactive bullet or a dead tank; otherwise the circles are compared.  The
source compares `distance < bullet.radius + tank.radius`; with the nonnegative
radii of this game that is equivalent to the squared comparison used here. -/
def checkBulletTankCollision (b : BulletState) (t : MovingTank) : Bool :=
  if b.isActive = false ∨ t.isAlive = false then false
  else decide (distSq b.pos t.pos < (bulletRadius + t.radius) * (bulletRadius + t.radius))

/-- The AI behavior states of an enemy tank. -/
inductive AIState where
  | patrol
  | chase
  | attack
  | retreat
deriving DecidableEq, Repr

/-- Readonly detection range of EnemyTank. -/
def detectionRange : ℚ := 300

/-- Readonly attack range of EnemyTank. -/
def attackRange : ℚ := 350

/-- Readonly lose-target range of EnemyTank. -/
def loseTargetRange : ℚ := 450

/-- Readonly alert duration of EnemyTank (seconds). -/
def alertDuration : ℚ := 8

/-- The AI-relevant fragment of an EnemyTank. -/
structure EnemyState where
  position : Vec
  aiState : AIState
  targetPosition : Option Vec
  alertedPosition : Option Vec
  alertTimer : ℚ
  searchTimer : ℚ
  isAlive : Bool
deriving DecidableEq, Repr

/-- Embeds `EnemyTank.alertToPosition(position)`: record the alert, reset the alert
countdown to the 8-second duration, reset the search timer, and force the
state to chase regardless of the current state. -/
def alertToPosition (s : EnemyState) (pos : Vec) : EnemyState :=
  { s with alertedPosition := some pos,
           alertTimer := alertDuration,
           searchTimer := 0,
           aiState := .chase }

/-- Embeds `EnemyTank.updateAIState()`.  Distance comparisons against the positive
readonly ranges are embedded as squared-distance comparisons, equivalent to
the source's sqrt-based comparisons. -/
def updateAIState (s : EnemyState) : EnemyState :=
  match s.targetPosition with
  | some target =>
    let d2 := distSq s.position target
    if d2 ≤ attackRange * attackRange then
      { s with aiState := .attack }
    else if d2 ≤ detectionRange * detectionRange then
      { s with aiState := .chase }
    else if loseTargetRange * loseTargetRange < d2 then
      { s with aiState := .patrol, targetPosition := none }
    else s
  | none =>
    match s.alertedPosition with
    | some alertPos =>
      if 0 < s.alertTimer then
        let d2 := distSq s.position alertPos
        if 30 * 30 < d2 then
          { s with aiState := .chase }
        else
          let st := s.searchTimer + 16 / 1000
          if st < 2 then { s with searchTimer := st, aiState := .patrol }
          else { s with searchTimer := 0, alertTimer := 0,
                        alertedPosition := none, aiState := .patrol }
      else { s with aiState := .patrol }
    | none => { s with aiState := .patrol }

/-- The alert-propagation slice of `TankGameEngine.updateBullets` for a player
bullet that has just hit the enemy at index `struckIdx`: the struck enemy is
alerted to the player's position, and so is every other living enemy whose
distance to the struck enemy is (strictly) below 200. -/
def propagateHitAlert (enemies : List EnemyState) (struckIdx : ℕ) (playerPos : Vec) :
    List EnemyState :=
  match enemies[struckIdx]? with
  | none => enemies
  | some struck =>
    enemies.mapIdx fun j e =>
      if j = struckIdx then alertToPosition e playerPos
      else if e.isAlive = true ∧ distSq e.position struck.position < 200 * 200 then
        alertToPosition e playerPos
      else e

/-- The session-state fragment touched by wave completion
(TankGameEngine: state.wave, maxWaves, enemiesPerWave, playerDamage, the
player's health, and the enemy roster size). -/
structure SessionState where
  wave : ℕ
  maxWaves : ℕ
  enemiesPerWave : ℕ
  playerDamage : ℚ
  playerHealth : ℚ
  playerMaxHealth : ℚ
  numEnemies : ℕ
  gameOver : Bool
  victory : Bool
deriving DecidableEq, Repr

/-- Number of enemies created by `TankGameEngine.spawnWave` for the given
wave counter: `enemiesPerWave + (wave - 1) * 2`. -/
def spawnCount (enemiesPerWave wave : ℕ) : ℕ :=
  enemiesPerWave + (wave - 1) * 2

/-- Embeds `TankGameEngine.checkWaveCompletion()`: when no enemies remain, either
declare victory (wave ≥ maxWaves) or increment the wave, heal the player to
full via `player.heal(player.maxHealth)`, set
`playerDamage = 25 + (wave - 1) * 5` with the incremented wave, and spawn the
next wave of `spawnCount` enemies. -/
def checkWaveCompletion (s : SessionState) : SessionState :=
  if s.numEnemies = 0 then
    if s.maxWaves ≤ s.wave then
      { s with gameOver := true, victory := true }
    else
      let w := s.wave + 1
      { s with wave := w,
               playerHealth := min s.playerMaxHealth (s.playerHealth + s.playerMaxHealth),
               playerDamage := 25 + ((w : ℚ) - 1) * 5,
               numEnemies := spawnCount s.enemiesPerWave w }
  else s

/-- Embeds `CollisionSystem.getCircleRectPushVector(circleX, circleY, radius, rectX,
rectY, rectW, rectH)`.  This is the one routine whose result genuinely uses a
square root, so it is embedded over the reals: clamp the center onto the
rectangle; no collision when the distance is ≥ radius; when the center is
exactly on the clamped point (distance 0, i.e. inside the rectangle) push
toward the nearest edge checking left, right, top, bottom in that order;
otherwise push along the collision normal by the overlap. -/
noncomputable def getCircleRectPushVector
    (circleX circleY radius rectX rectY rectW rectH : ℝ) : Option (ℝ × ℝ) :=
  let closestX := max rectX (min circleX (rectX + rectW))
  let closestY := max rectY (min circleY (rectY + rectH))
  let dx := circleX - closestX
  let dy := circleY - closestY
  let distance := Real.sqrt (dx * dx + dy * dy)
  if radius ≤ distance then none
  else if distance = 0 then
    let toLeft := circleX - rectX
    let toRight := rectX + rectW - circleX
    let toTop := circleY - rectY
    let toBottom := rectY + rectH - circleY
    let minDist := min (min (min toLeft toRight) toTop) toBottom
    if minDist = toLeft then some (-radius - toLeft, 0)
    else if minDist = toRight then some (radius + toRight, 0)
    else if minDist = toTop then some (0, -radius - toTop)
    else some (0, radius + toBottom)
  else
    let overlap := radius - distance
    some (dx / distance * overlap, dy / distance * overlap)

end TankGame

namespace TankGame

theorem takeDamage_health_nonneg (s : TankState) (a : ℚ) :
    0 ≤ (takeDamage s a).1.health := by
  simp only [takeDamage]
  split_ifs <;> simp [le_max_left]

theorem takeDamage_health_le (s : TankState) (a : ℚ) (ha : 0 ≤ a)
    (h0 : 0 ≤ s.health) :
    (takeDamage s a).1.health ≤ s.health := by
  simp only [takeDamage]
  split_ifs with h
  · exact le_trans h h0
  · exact max_le h0 (by linarith)

theorem takeDamage_maxHealth (s : TankState) (a : ℚ) :
    (takeDamage s a).1.maxHealth = s.maxHealth := by
  simp only [takeDamage]
  split_ifs <;> rfl

theorem applyCall_healthInBounds (s : TankState) (c : TankCall)
    (hs : healthInBounds s) (ha : 0 ≤ c.amount) :
    healthInBounds (applyCall s c) := by
  obtain ⟨h0, h1⟩ := hs
  cases c with
  | damage a =>
    simp only [TankCall.amount] at ha
    simp only [applyCall]
    refine ⟨takeDamage_health_nonneg s a, ?_⟩
    rw [takeDamage_maxHealth]
    exact le_trans (takeDamage_health_le s a ha h0) h1
  | healBy a =>
    simp only [TankCall.amount] at ha
    refine ⟨?_, ?_⟩
    · simp only [applyCall, heal]
      exact le_min (le_trans h0 h1) (by linarith)
    · simp only [applyCall, heal]
      exact min_le_left _ _

/-- C1 counterexample: on a unit that is already dead (health 0),
`takeDamage(10)` returns true, not false as the claim states (it does leave
health at 0). -/
theorem c1_counterexample :
    (takeDamage ⟨0, 100, false⟩ 10).1.health = 0 ∧
    ¬ ((takeDamage ⟨0, 100, false⟩ 10).2 = false) := by
  norm_num [takeDamage]

/-- C1 (amended): calling `takeDamage(10)` on a unit whose health is already 0
leaves health at 0 and the alive flag false, but the call returns true:
`takeDamage` reports true whenever the post-call health is ≤ 0, not only on
the first alive-to-dead transition. -/
theorem c1_dead_takeDamage (s : TankState) (h : s.health = 0) :
    (takeDamage s 10).1.health = 0 ∧ (takeDamage s 10).1.isAlive = false ∧
    (takeDamage s 10).2 = true := by
  norm_num [takeDamage, h]

/-- C1 witness: the amended claim evaluated at a concrete dead unit. -/
theorem c1_witness :
    (takeDamage ⟨0, 60, false⟩ 10).1.health = 0 ∧
    (takeDamage ⟨0, 60, false⟩ 10).1.isAlive = false ∧
    (takeDamage ⟨0, 60, false⟩ 10).2 = true :=
  c1_dead_takeDamage ⟨0, 60, false⟩ rfl

/-- C2 counterexample: the invariant `alive == (health > 0)` is not preserved
by `heal` on a dead unit: healing a dead unit (health 0) by 50 raises health
to 50 while the alive flag stays false. -/
theorem c2_counterexample :
    aliveInv ⟨0, 100, false⟩ ∧ ¬ aliveInv (heal ⟨0, 100, false⟩ 50) := by
  constructor
  · simp [aliveInv]
  · norm_num [aliveInv, heal]

/-- C2 (amended): the invariant `alive == (health > 0)` holds after
construction with positive initial health, is preserved by `takeDamage` for
every nonnegative amount, and is preserved by `heal` for nonnegative amounts
whenever the unit is alive with health ≤ maxHealth; a heal on a dead unit can
raise health above 0 while the alive flag stays false. -/
theorem c2_alive_invariant :
    (∀ h : ℚ, 0 < h → aliveInv (mkTank h)) ∧
    (∀ (s : TankState) (a : ℚ), aliveInv s → 0 ≤ a →
      aliveInv (takeDamage s a).1) ∧
    (∀ (s : TankState) (a : ℚ), aliveInv s → 0 ≤ a → s.isAlive = true →
      s.health ≤ s.maxHealth → aliveInv (heal s a)) := by
  refine ⟨?_, ?_, ?_⟩
  · intro h hh
    simpa [aliveInv, mkTank] using hh
  · intro s a hinv ha
    simp only [takeDamage]
    split_ifs with hle
    · simp only [aliveInv]
      constructor
      · intro hc; exact absurd hc (by simp)
      · intro hc; exact absurd hle (not_le.mpr hc)
    · push_neg at hle
      have hpos : 0 < s.health := by
        have : 0 < s.health - a := by
          by_contra hcon
          push_neg at hcon
          exact absurd (max_eq_left hcon) (by intro he; rw [he] at hle; exact lt_irrefl 0 hle)
        linarith
      simp only [aliveInv] at hinv ⊢
      exact iff_of_true (hinv.mpr hpos) hle
  · intro s a hinv ha halive hmax
    have hpos : 0 < s.health := (by simpa [aliveInv, halive] using hinv)
    simp only [aliveInv, heal, halive]
    exact iff_of_true trivial (lt_min (by linarith) (by linarith))

/-- C2 witness: the amended invariant clauses evaluated at concrete inputs. -/
theorem c2_witness :
    aliveInv (mkTank 100) ∧ aliveInv (takeDamage (mkTank 100) 30).1 ∧
    aliveInv (heal (mkTank 100) 5) :=
  ⟨c2_alive_invariant.1 100 (by norm_num),
   c2_alive_invariant.2.1 (mkTank 100) 30
     (c2_alive_invariant.1 100 (by norm_num)) (by norm_num),
   c2_alive_invariant.2.2 (mkTank 100) 5
     (c2_alive_invariant.1 100 (by norm_num)) (by norm_num) rfl (le_refl _)⟩

/-- C3 counterexample: health does not stay within [0, maxHealth] for every
sequence of calls: a single `takeDamage(-200)` on a fresh unit with
maxHealth 100 raises health to 300 > 100. -/
theorem c3_counterexample :
    ¬ ((runCalls (mkTank 100) [.damage (-200)]).health ≤
        (mkTank 100).maxHealth) := by
  norm_num [runCalls, applyCall, takeDamage, mkTank]

/-- C3 (amended): starting from any state with 0 ≤ health ≤ maxHealth, health
stays within [0, maxHealth] after every finite sequence of takeDamage/heal
calls with nonnegative amounts (every in-engine call site passes a positive
amount); since every prefix of such a sequence again satisfies the
hypotheses, the bound holds after each call. -/
theorem c3_health_bounds (s : TankState) (cs : List TankCall)
    (hs : healthInBounds s) (h : ∀ c ∈ cs, 0 ≤ c.amount) :
    healthInBounds (runCalls s cs) := by
  induction cs generalizing s with
  | nil => exact hs
  | cons c cs ih =>
    have hstep := applyCall_healthInBounds s c hs (h c (List.mem_cons_self c cs))
    exact ih (applyCall s c) hstep (fun c' hc' => h c' (List.mem_cons_of_mem _ hc'))

/-- C3 witness: the amended claim evaluated on a concrete call sequence. -/
theorem c3_witness :
    healthInBounds (runCalls (mkTank 100) [.damage 30, .healBy 50, .damage 200]) :=
  c3_health_bounds (mkTank 100) _ (by norm_num [healthInBounds, mkTank])
    (by intro c hc; fin_cases hc <;> norm_num [TankCall.amount])

theorem resolveTankWallCollision_radius (walls : List Wall) (t : MovingTank) :
    (resolveTankWallCollision walls t).radius = t.radius := by
  simp only [resolveTankWallCollision]
  split_ifs <;> rfl

/-- C4 counterexample: a live tank (radius 18) exactly at the center of the
10×100 wall at (100,100) is not displaced at all by the wall resolution
(sign(0) = 0 collapses the horizontal push), and the bounds clamp leaves it
in place, so after the full pipeline its circle still overlaps the wall. -/
theorem c4_counterexample :
    Wall.intersectsCircle ⟨100, 100, 10, 100⟩
      (keepTankInBounds arenaBounds
        (resolveTankWallCollision [⟨100, 100, 10, 100⟩] ⟨⟨105, 150⟩, 18, true⟩)).pos.x
      (keepTankInBounds arenaBounds
        (resolveTankWallCollision [⟨100, 100, 10, 100⟩] ⟨⟨105, 150⟩, 18, true⟩)).pos.y
      (keepTankInBounds arenaBounds
        (resolveTankWallCollision [⟨100, 100, 10, 100⟩] ⟨⟨105, 150⟩, 18, true⟩)).radius
      = true := by
  norm_num [Wall.intersectsCircle, keepTankInBounds, resolveTankWallCollision,
    resolveOneWall, Wall.getCenter, jsSign, arenaBounds, List.foldl]

/-- C4 (amended): after wall resolution followed by the bounds clamp the
tank's center does lie within the playable rectangle shrunk by its radius
(whenever that shrunk rectangle is nonempty), but the no-wall-overlap half of
the claim fails: the per-axis push-out can leave the circle overlapping a
wall (see the counterexample, where sign(0) = 0 yields no displacement). -/
theorem c4_bounds_clamp (walls : List Wall) (b : Bounds) (t : MovingTank)
    (hx : b.minX + t.radius ≤ b.maxX - t.radius)
    (hy : b.minY + t.radius ≤ b.maxY - t.radius) :
    b.minX + t.radius ≤
        (keepTankInBounds b (resolveTankWallCollision walls t)).pos.x ∧
      (keepTankInBounds b (resolveTankWallCollision walls t)).pos.x ≤
        b.maxX - t.radius ∧
      b.minY + t.radius ≤
        (keepTankInBounds b (resolveTankWallCollision walls t)).pos.y ∧
      (keepTankInBounds b (resolveTankWallCollision walls t)).pos.y ≤
        b.maxY - t.radius := by
  have hr := resolveTankWallCollision_radius walls t
  simp only [keepTankInBounds, hr]
  exact ⟨le_max_left _ _, max_le hx (min_le_left _ _),
    le_max_left _ _, max_le hy (min_le_left _ _)⟩

/-- C4 witness: the bounds-clamp half of the amended claim evaluated on the
concrete arena with one wall. -/
theorem c4_witness :
    arenaBounds.minX + (18 : ℚ) ≤
        (keepTankInBounds arenaBounds
          (resolveTankWallCollision [⟨100, 100, 10, 100⟩] ⟨⟨105, 150⟩, 18, true⟩)).pos.x ∧
      (keepTankInBounds arenaBounds
          (resolveTankWallCollision [⟨100, 100, 10, 100⟩] ⟨⟨105, 150⟩, 18, true⟩)).pos.x ≤
        arenaBounds.maxX - (18 : ℚ) ∧
      arenaBounds.minY + (18 : ℚ) ≤
        (keepTankInBounds arenaBounds
          (resolveTankWallCollision [⟨100, 100, 10, 100⟩] ⟨⟨105, 150⟩, 18, true⟩)).pos.y ∧
      (keepTankInBounds arenaBounds
          (resolveTankWallCollision [⟨100, 100, 10, 100⟩] ⟨⟨105, 150⟩, 18, true⟩)).pos.y ≤
        arenaBounds.maxY - (18 : ℚ) :=
  c4_bounds_clamp [⟨100, 100, 10, 100⟩] arenaBounds ⟨⟨105, 150⟩, 18, true⟩
    (by norm_num [arenaBounds]) (by norm_num [arenaBounds])

theorem clamp_sq_le (lo hi c p : ℚ) (h1 : lo ≤ p) (h2 : p ≤ hi) :
    (c - max lo (min c hi)) * (c - max lo (min c hi)) ≤ (c - p) * (c - p) := by
  rcases le_total c lo with hclo | hclo
  · have hch : c ≤ hi := le_trans hclo (le_trans h1 h2)
    rw [min_eq_left hch, max_eq_left hclo]
    nlinarith
  · rcases le_total c hi with hchi | hchi
    · rw [min_eq_left hchi, max_eq_right hclo]
      nlinarith
    · rw [min_eq_right hchi, max_eq_right (le_trans h1 h2)]
      nlinarith

/-- C6 counterexample: the intersection test is not strict.  For the 10×10
wall at the origin and a circle of radius 5 centered at (15,5), the closest
rectangle point is (10,5) at distance exactly 5 = radius: the claimed
strictly-less condition is false, yet the code reports an intersection
(it compares squared distance with `<=`). -/
theorem c6_counterexample :
    Wall.intersectsCircle ⟨0, 0, 10, 10⟩ 15 5 5 = true ∧
    ¬ (((15 : ℚ) - 10) * (15 - 10) + ((5 : ℚ) - 5) * (5 - 5) < 5 * 5) := by
  norm_num [Wall.intersectsCircle]

/-- C6 (amended): for rectangles with nonnegative extents, the test reports
an intersection iff some point of the rectangle is within distance ≤ radius
of the center (non-strict: a circle exactly touching the rectangle counts),
because the per-axis clamped point is the closest rectangle point. -/
theorem c6_intersectsCircle_iff (w : Wall) (cx cy r : ℚ)
    (hw : 0 ≤ w.width) (hh : 0 ≤ w.height) :
    Wall.intersectsCircle w cx cy r = true ↔
      ∃ px py, w.x ≤ px ∧ px ≤ w.x + w.width ∧ w.y ≤ py ∧ py ≤ w.y + w.height ∧
        (cx - px) * (cx - px) + (cy - py) * (cy - py) ≤ r * r := by
  simp only [Wall.intersectsCircle, decide_eq_true_eq]
  constructor
  · intro hle
    exact ⟨max w.x (min cx (w.x + w.width)), max w.y (min cy (w.y + w.height)),
      le_max_left _ _, max_le (by linarith) (min_le_right _ _),
      le_max_left _ _, max_le (by linarith) (min_le_right _ _), hle⟩
  · rintro ⟨px, py, hpx1, hpx2, hpy1, hpy2, hp⟩
    have h1 := clamp_sq_le w.x (w.x + w.width) cx px hpx1 hpx2
    have h2 := clamp_sq_le w.y (w.y + w.height) cy py hpy1 hpy2
    linarith

/-- C6 witness: the amended characterization evaluated at a concrete wall
and circle. -/
theorem c6_witness :
    Wall.intersectsCircle ⟨0, 0, 10, 10⟩ 12 5 5 = true ↔
      ∃ px py, (0 : ℚ) ≤ px ∧ px ≤ (0 : ℚ) + 10 ∧ (0 : ℚ) ≤ py ∧
        py ≤ (0 : ℚ) + 10 ∧
        ((12 : ℚ) - px) * (12 - px) + ((5 : ℚ) - py) * (5 - py) ≤ 5 * 5 :=
  c6_intersectsCircle_iff ⟨0, 0, 10, 10⟩ 12 5 5 (by norm_num) (by norm_num)

/-- C10 counterexample: a projectile later in the same tick does NOT resolve
against a unit already marked dead: with the bullet exactly on top of the
dead tank (distance 0, well inside the combined radius 4 + 18), the
bullet-tank collision check returns false. -/
theorem c10_counterexample :
    checkBulletTankCollision ⟨⟨0, 0⟩, true⟩ ⟨⟨0, 0⟩, 18, false⟩ = false ∧
    distSq (⟨0, 0⟩ : Vec) ⟨0, 0⟩ < (bulletRadius + 18) * (bulletRadius + 18) := by
  norm_num [checkBulletTankCollision, distSq, bulletRadius]

/-- C10 (amended): a unit marked dead earlier in the tick does stay in the
roster until the enemy-update step of the next tick, but
`checkBulletTankCollision` returns false for every unit whose alive flag is
cleared, so a second projectile resolved later in that tick does not hit it
and no damage is applied (the harmless-clamping path is unreachable). -/
theorem c10_dead_not_hit (b : BulletState) (t : MovingTank)
    (h : t.isAlive = false) :
    checkBulletTankCollision b t = false := by
  simp [checkBulletTankCollision, h]

/-- C10 witness: the amended claim evaluated at a concrete bullet and dead
tank. -/
theorem c10_witness :
    checkBulletTankCollision ⟨⟨5, 5⟩, true⟩ ⟨⟨5, 5⟩, 18, false⟩ = false :=
  c10_dead_not_hit ⟨⟨5, 5⟩, true⟩ ⟨⟨5, 5⟩, 18, false⟩ rfl

/-- C5: when the circle center lies inside the rectangle (so the clamped
closest point coincides with the center and the distance is 0), the push-out
vector targets the nearest of the four edges, ties broken in the fixed order
left, right, top, bottom; the returned vector is the exact per-edge
displacement computed by the source. -/
theorem c5_push_inside (circleX circleY radius rectX rectY rectW rectH : ℝ)
    (hx1 : rectX ≤ circleX) (hx2 : circleX ≤ rectX + rectW)
    (hy1 : rectY ≤ circleY) (hy2 : circleY ≤ rectY + rectH)
    (hr : 0 < radius) :
    (circleX - rectX ≤ rectX + rectW - circleX →
      circleX - rectX ≤ circleY - rectY →
      circleX - rectX ≤ rectY + rectH - circleY →
      getCircleRectPushVector circleX circleY radius rectX rectY rectW rectH =
        some (-radius - (circleX - rectX), 0)) ∧
    (rectX + rectW - circleX < circleX - rectX →
      rectX + rectW - circleX ≤ circleY - rectY →
      rectX + rectW - circleX ≤ rectY + rectH - circleY →
      getCircleRectPushVector circleX circleY radius rectX rectY rectW rectH =
        some (radius + (rectX + rectW - circleX), 0)) ∧
    (circleY - rectY < circleX - rectX →
      circleY - rectY < rectX + rectW - circleX →
      circleY - rectY ≤ rectY + rectH - circleY →
      getCircleRectPushVector circleX circleY radius rectX rectY rectW rectH =
        some (0, -radius - (circleY - rectY))) ∧
    (rectY + rectH - circleY < circleX - rectX →
      rectY + rectH - circleY < rectX + rectW - circleX →
      rectY + rectH - circleY < circleY - rectY →
      getCircleRectPushVector circleX circleY radius rectX rectY rectW rectH =
        some (0, radius + (rectY + rectH - circleY))) := by
  have hcx : max rectX (min circleX (rectX + rectW)) = circleX := by
    rw [min_eq_left hx2, max_eq_right hx1]
  have hcy : max rectY (min circleY (rectY + rectH)) = circleY := by
    rw [min_eq_left hy2, max_eq_right hy1]
  have hzero : Real.sqrt ((circleX - circleX) * (circleX - circleX) +
      (circleY - circleY) * (circleY - circleY)) = 0 := by
    simp
  simp only [getCircleRectPushVector, hcx, hcy, hzero]
  rw [if_neg (not_le.mpr hr), if_pos trivial]
  refine ⟨?_, ?_, ?_, ?_⟩
  · intro h1 h2 h3
    rw [min_eq_left h1, min_eq_left h2, min_eq_left h3, if_pos rfl]
  · intro h1 h2 h3
    rw [min_eq_right (le_of_lt h1), min_eq_left h2, min_eq_left h3,
      if_neg (ne_of_lt h1), if_pos rfl]
  · intro h1 h2 h3
    rw [min_eq_right (le_min (le_of_lt h1) (le_of_lt h2)), min_eq_left h3,
      if_neg (ne_of_lt h1), if_neg (ne_of_lt h2), if_pos rfl]
  · intro h1 h2 h3
    rw [min_eq_right (le_min (le_min (le_of_lt h1) (le_of_lt h2)) (le_of_lt h3)),
      if_neg (ne_of_lt h1), if_neg (ne_of_lt h2), if_neg (ne_of_lt h3)]

/-- C5 witness: the circle at (50,50) with radius 10 inside the rectangle
with corner (45,45) and extent 20×20 is pushed along the negative-x (left)
direction. -/
theorem c5_witness :
    getCircleRectPushVector 50 50 10 45 45 20 20 = some (-15, 0) := by
  have h := (c5_push_inside 50 50 10 45 45 20 20 (by norm_num) (by norm_num)
    (by norm_num) (by norm_num) (by norm_num)).1
    (by norm_num) (by norm_num) (by norm_num)
  rw [h]
  norm_num

/-- C7: per-tick AI state resolution.  With a direct target: distance within
the attack range yields attack; else within the detection range yields chase;
else beyond the lose range the target is dropped and the state is patrol.
In particular (detection 300, attack 350, lose 450) a direct target at
distance 340 yields attack, and with no direct target but an active alert at
distance 320 (> 30) the state is chase. -/
theorem c7_ai_state_rules :
    (∀ (s : EnemyState) (p : Vec), s.targetPosition = some p →
      (distSq s.position p ≤ attackRange * attackRange →
        (updateAIState s).aiState = .attack) ∧
      (attackRange * attackRange < distSq s.position p →
        distSq s.position p ≤ detectionRange * detectionRange →
        (updateAIState s).aiState = .chase) ∧
      (loseTargetRange * loseTargetRange < distSq s.position p →
        (updateAIState s).aiState = .patrol ∧
        (updateAIState s).targetPosition = none)) ∧
    (updateAIState ⟨⟨0, 0⟩, .patrol, some ⟨340, 0⟩, none, 0, 0, true⟩).aiState
      = .attack ∧
    (updateAIState ⟨⟨0, 0⟩, .chase, none, some ⟨320, 0⟩, 5, 0, true⟩).aiState
      = .chase := by
  refine ⟨?_, ?_, ?_⟩
  · intro s p hp
    have haL : attackRange * attackRange < loseTargetRange * loseTargetRange := by
      norm_num [attackRange, loseTargetRange]
    have hdL : detectionRange * detectionRange < loseTargetRange * loseTargetRange := by
      norm_num [detectionRange, loseTargetRange]
    simp only [updateAIState, hp]
    refine ⟨?_, ?_, ?_⟩
    · intro h1
      rw [if_pos h1]
    · intro h1 h2
      rw [if_neg (not_le.mpr h1), if_pos h2]
    · intro h3
      rw [if_neg (not_le.mpr (by linarith)), if_neg (not_le.mpr (by linarith)),
        if_pos h3]
      exact ⟨rfl, rfl⟩
  · norm_num [updateAIState, distSq, attackRange]
  · norm_num [updateAIState, distSq]

/-- C7 witness: the direct-target transition rule evaluated at a concrete
unit with a target at distance 100 (within the attack range). -/
theorem c7_witness :
    (updateAIState ⟨⟨0, 0⟩, .patrol, some ⟨100, 0⟩, none, 0, 0, true⟩).aiState
      = .attack :=
  (c7_ai_state_rules.1 ⟨⟨0, 0⟩, .patrol, some ⟨100, 0⟩, none, 0, 0, true⟩
    ⟨100, 0⟩ rfl).1 (by norm_num [distSq, attackRange])

theorem getElem?_mapIdx_of_getElem? {α β : Type} (l : List α) (f : ℕ → α → β)
    (j : ℕ) (e : α) (h : l[j]? = some e) :
    (l.mapIdx f)[j]? = some (f j e) := by
  have hj : j < l.length := by
    by_contra hc
    push_neg at hc
    rw [List.getElem?_eq_none hc] at h
    exact Option.noConfusion h
  have hj' : j < (l.mapIdx f).length := by
    rw [List.length_mapIdx]
    exact hj
  rw [List.getElem?_eq_getElem hj']
  have hg := List.get_mapIdx l f j hj
  simp only [List.get_eq_getElem] at hg
  rw [hg]
  rw [List.getElem?_eq_getElem hj] at h
  exact congrArg (fun x => some (f j x)) (Option.some.inj h)

/-- C8: the method `alertToPosition(pos)` records the alert at `pos` with the 8-second
countdown and forces the state to chase from every state (including attack
and retreat); and the hit-alert propagation of the bullet update alerts every
other living AI unit strictly within 200 units of the struck unit to the
player's position. -/
theorem c8_alert_and_propagation :
    (∀ (s : EnemyState) (pos : Vec),
      (alertToPosition s pos).alertedPosition = some pos ∧
      (alertToPosition s pos).alertTimer = 8 ∧
      (alertToPosition s pos).aiState = .chase) ∧
    (∀ (enemies : List EnemyState) (i j : ℕ) (playerPos : Vec)
      (struck e : EnemyState),
      enemies[i]? = some struck → enemies[j]? = some e → j ≠ i →
      e.isAlive = true → distSq e.position struck.position < 200 * 200 →
      (propagateHitAlert enemies i playerPos)[j]? =
        some (alertToPosition e playerPos)) := by
  constructor
  · intro s pos
    exact ⟨rfl, rfl, rfl⟩
  · intro enemies i j playerPos struck e h1 h2 hne halive hdist
    simp only [propagateHitAlert, h1]
    rw [getElem?_mapIdx_of_getElem? enemies _ j e h2]
    rw [if_neg hne, if_pos ⟨halive, hdist⟩]

/-- C8 witness: the propagation conclusion evaluated on a concrete roster of
two enemies 100 units apart, the first being struck. -/
theorem c8_witness :
    (propagateHitAlert
        [⟨⟨0, 0⟩, .patrol, none, none, 0, 0, true⟩,
         ⟨⟨100, 0⟩, .attack, none, none, 0, 0, true⟩] 0 ⟨7, 8⟩)[1]? =
      some (alertToPosition ⟨⟨100, 0⟩, .attack, none, none, 0, 0, true⟩ ⟨7, 8⟩) :=
  c8_alert_and_propagation.2
    [⟨⟨0, 0⟩, .patrol, none, none, 0, 0, true⟩,
     ⟨⟨100, 0⟩, .attack, none, none, 0, 0, true⟩] 0 1 ⟨7, 8⟩
    ⟨⟨0, 0⟩, .patrol, none, none, 0, 0, true⟩
    ⟨⟨100, 0⟩, .attack, none, none, 0, 0, true⟩
    rfl rfl (by norm_num) rfl (by norm_num [distSq])

/-- C9: when all enemies are cleared and wave < maxWaves, the wave counter
increments, the player is healed to full, player damage becomes
25 + 5*(wave-1) for the new wave, and the next wave has
enemiesPerWave + 2*(wave-1) enemies; clearing wave 1 with enemiesPerWave 3
and maxWaves 5 yields wave 2, 5 enemies and damage 30; with wave ≥ maxWaves,
victory is declared instead. -/
theorem c9_wave_escalation :
    (∀ s : SessionState, s.numEnemies = 0 → s.wave < s.maxWaves →
      0 ≤ s.playerHealth →
      (checkWaveCompletion s).wave = s.wave + 1 ∧
      (checkWaveCompletion s).playerHealth = s.playerMaxHealth ∧
      (checkWaveCompletion s).playerDamage =
        25 + (((checkWaveCompletion s).wave : ℚ) - 1) * 5 ∧
      (checkWaveCompletion s).numEnemies =
        s.enemiesPerWave + ((checkWaveCompletion s).wave - 1) * 2) ∧
    (checkWaveCompletion ⟨1, 5, 3, 25, 40, 100, 0, false, false⟩ =
      ⟨2, 5, 3, 30, 100, 100, 5, false, false⟩) ∧
    (∀ s : SessionState, s.numEnemies = 0 → s.maxWaves ≤ s.wave →
      (checkWaveCompletion s).gameOver = true ∧
      (checkWaveCompletion s).victory = true) := by
  refine ⟨?_, ?_, ?_⟩
  · intro s h0 hw hh
    refine ⟨?_, ?_, ?_, ?_⟩
    · simp only [checkWaveCompletion, if_pos h0, if_neg (not_le.mpr hw)]
    · simp only [checkWaveCompletion, if_pos h0, if_neg (not_le.mpr hw)]
      exact min_eq_left (by linarith)
    · simp only [checkWaveCompletion, if_pos h0, if_neg (not_le.mpr hw)]
    · simp only [checkWaveCompletion, if_pos h0, if_neg (not_le.mpr hw), spawnCount]
  · norm_num [checkWaveCompletion, spawnCount, SessionState.mk.injEq]
  · intro s h0 hw
    simp only [checkWaveCompletion, if_pos h0, if_pos hw]
    exact ⟨trivial, trivial⟩

/-- C9 witness: the wave-advance clause evaluated at a concrete session
clearing wave 1. -/
theorem c9_witness :
    (checkWaveCompletion ⟨1, 5, 3, 25, 60, 100, 0, false, false⟩).wave = 1 + 1 ∧
    (checkWaveCompletion ⟨1, 5, 3, 25, 60, 100, 0, false, false⟩).playerHealth = 100 ∧
    (checkWaveCompletion ⟨1, 5, 3, 25, 60, 100, 0, false, false⟩).playerDamage =
      25 + (((checkWaveCompletion ⟨1, 5, 3, 25, 60, 100, 0, false, false⟩).wave : ℚ) - 1) * 5 ∧
    (checkWaveCompletion ⟨1, 5, 3, 25, 60, 100, 0, false, false⟩).numEnemies =
      3 + ((checkWaveCompletion ⟨1, 5, 3, 25, 60, 100, 0, false, false⟩).wave - 1) * 2 :=
  c9_wave_escalation.1 ⟨1, 5, 3, 25, 60, 100, 0, false, false⟩ rfl
    (by norm_num) (by norm_num)

end TankGame
